import Mathlib

/-!
# Verification of the movie-review backend (src/backend/backend.py)

A shallow embedding of the FastAPI + PostgreSQL backend in
`src/backend/backend.py`.  Conventions of the embedding:

* Python strings are modelled as `List Char` (a Python `str` is a sequence
  of code points); `len`, slicing, `strip` and `lower` become list
  operations defined below.
* Python floats are modelled as `ℚ`; `round(x, 4)` is modelled exactly
  (Python rounds half to even).
* The PostgreSQL state is a pair of tables (`movies`, `reviews`) together
  with the `SERIAL` counters and a logical clock standing for
  `CURRENT_TIMESTAMP` (timestamps only need to be totally ordered).
* The HuggingFace `sentiment_analyzer` pipeline is an external collaborator:
  it is a parameter of type `PyStr → Option ClassifierResult`, where `none`
  models a raised exception / unusable output (caught by the
  `try/except` in `analyze_sentiment`).
* Store faults inside `create_review`'s `try` block are injected through a
  `StoreFault` parameter: the `INSERT`/`COMMIT` may fail (psycopg raises,
  `conn.rollback()` undoes the uncommitted insert), or the post-commit
  re-read `SELECT` may fail (psycopg raises, `conn.rollback()` is a no-op
  because the insert is already committed).
* Endpoints return `Except HTTPException α`; mutating endpoints also return
  the resulting database state (on a rolled-back failure, the input state).
-/

/-- A Python `str`: a sequence of characters. -/
abbrev PyStr := List Char

/-- Python `str.strip()`: drop whitespace from both ends. -/
def pyStrip (s : PyStr) : PyStr :=
  ((s.dropWhile Char.isWhitespace).reverse.dropWhile Char.isWhitespace).reverse

/-- Python `str.lower()` (the labels handled by the backend are ASCII). -/
def pyLower (s : PyStr) : PyStr :=
  s.map Char.toLower

/-- Python `round(x)`: round half to even (banker's rounding). -/
def pyRoundHalfEven (x : ℚ) : ℤ :=
  let f := ⌊x⌋
  let r := x - (f : ℚ)
  if r < 1/2 then f
  else if 1/2 < r then f + 1
  else if f % 2 = 0 then f else f + 1

/-- Python `round(x, 4)`. -/
def pyRound4 (x : ℚ) : ℚ :=
  (pyRoundHalfEven (x * 10000) : ℚ) / 10000

/-- One element of the list returned by the HuggingFace sentiment pipeline:
`{'label': ..., 'score': ...}`. -/
structure ClassifierResult where
  label : PyStr
  score : ℚ

/-- `analyze_sentiment` (backend.py lines 95–131).  `sentiment_analyzer` is
the pretrained pipeline, an external collaborator; `none` stands for a call
that raised or produced unusable output, which the `except` clause turns
into the neutral `0.5`. -/
def analyze_sentiment (sentiment_analyzer : PyStr → Option ClassifierResult)
    (text : PyStr) : ℚ :=
  -- 텍스트가 너무 길면 자르기
  let text := if text.length > 500 then text.take 500 else text
  -- 너무 짧은 텍스트 처리
  if (pyStrip text).length < 3 then 1/2
  else
    match sentiment_analyzer text with
    | none => 1/2          -- 오류 시 중립값 반환 (except branch)
    | some result =>
      let label := result.label
      let score := result.score
      if pyLower label = "positive".data then
        pyRound4 (1/2 + score * (1/2))
      else
        pyRound4 (1/2 - score * (1/2))

/-! ## Bounds for the rounding helper -/

lemma le_pyRoundHalfEven (x : ℚ) (n : ℤ) (hx : (n : ℚ) ≤ x) :
    n ≤ pyRoundHalfEven x := by
  have hfl : n ≤ ⌊x⌋ := Int.le_floor.mpr hx
  unfold pyRoundHalfEven
  dsimp only
  split
  · exact hfl
  · split
    · omega
    · split <;> omega

lemma pyRoundHalfEven_le (x : ℚ) (n : ℤ) (hx : x ≤ (n : ℚ)) :
    pyRoundHalfEven x ≤ n := by
  have hfl : (⌊x⌋ : ℚ) ≤ x := Int.floor_le x
  have hfln : ⌊x⌋ ≤ n := by
    have : (⌊x⌋ : ℚ) ≤ (n : ℚ) := le_trans hfl hx
    exact_mod_cast this
  unfold pyRoundHalfEven
  dsimp only
  split
  · exact hfln
  · rename_i h1
    have hr : (1 : ℚ)/2 ≤ x - (⌊x⌋ : ℚ) := le_of_not_lt h1
    have hstrict : (⌊x⌋ : ℚ) < x := by linarith
    have hlt : ⌊x⌋ < n := by
      have : (⌊x⌋ : ℚ) < (n : ℚ) := lt_of_lt_of_le hstrict hx
      exact_mod_cast this
    split
    · omega
    · split <;> omega

lemma pyRound4_nonneg (x : ℚ) (hx : 0 ≤ x) : 0 ≤ pyRound4 x := by
  unfold pyRound4
  have h : (0 : ℤ) ≤ pyRoundHalfEven (x * 10000) := by
    apply le_pyRoundHalfEven
    positivity
  have : (0 : ℚ) ≤ (pyRoundHalfEven (x * 10000) : ℚ) := by exact_mod_cast h
  positivity

lemma pyRound4_le_one (x : ℚ) (hx : x ≤ 1) : pyRound4 x ≤ 1 := by
  unfold pyRound4
  have h : pyRoundHalfEven (x * 10000) ≤ (10000 : ℤ) := by
    apply pyRoundHalfEven_le
    push_cast
    linarith
  have h' : (pyRoundHalfEven (x * 10000) : ℚ) ≤ 10000 := by exact_mod_cast h
  linarith

/-- Core range fact for the scoring function: if the pipeline's confidence
lies in `[0,1]` (the contract of the external classifier), every score
produced by `analyze_sentiment` lies in `[0,1]`. -/
lemma analyze_sentiment_mem_unitInterval
    (sentiment_analyzer : PyStr → Option ClassifierResult)
    (hA : ∀ t r, sentiment_analyzer t = some r → 0 ≤ r.score ∧ r.score ≤ 1)
    (text : PyStr) :
    0 ≤ analyze_sentiment sentiment_analyzer text ∧
      analyze_sentiment sentiment_analyzer text ≤ 1 := by
  unfold analyze_sentiment
  dsimp only
  generalize (if text.length > 500 then text.take 500 else text) = t
  split
  · norm_num
  · cases hr : sentiment_analyzer t with
    | none => norm_num
    | some r =>
      obtain ⟨h0, h1⟩ := hA t r hr
      dsimp only
      split
      · refine ⟨pyRound4_nonneg _ (by linarith), pyRound4_le_one _ (by linarith)⟩
      · refine ⟨pyRound4_nonneg _ (by linarith), pyRound4_le_one _ (by linarith)⟩

/-! ## Data model (backend.py lines 40–70 and the schema in `startup`) -/

/-- Pydantic `Movie` (request/response body of `POST /movies`). -/
structure Movie where
  id : Option Nat := none
  title : PyStr
  release_date : PyStr
  director : PyStr
  genre : PyStr
  poster_url : PyStr

/-- Pydantic `MovieWithRating` (response of `GET /movies` and
`GET /movies/{id}`). -/
structure MovieWithRating where
  id : Option Nat := none
  title : PyStr
  release_date : PyStr
  director : PyStr
  genre : PyStr
  poster_url : PyStr
  review_count : Nat := 0
  average_rating : Option ℚ := none

/-- Pydantic `Review` (response of the review endpoints). -/
structure Review where
  id : Option Nat := none
  movie_id : Nat
  movie_title : Option PyStr := none
  author : PyStr
  content : PyStr
  sentiment_score : Option ℚ := none
  created_at : Option Nat := none

/-- Pydantic `ReviewCreate` (request body of `POST /reviews`). -/
structure ReviewCreate where
  movie_id : Nat
  author : PyStr
  content : PyStr

/-- A row of the `movies` table (`id SERIAL PRIMARY KEY`, text columns). -/
structure MovieRow where
  id : Nat
  title : PyStr
  release_date : PyStr
  director : PyStr
  genre : PyStr
  poster_url : PyStr

/-- A row of the `reviews` table.  `sentiment_score` is always present
because rows are only ever written by `create_review`, which always computes
a score; `created_at` is the store-assigned `CURRENT_TIMESTAMP`. -/
structure ReviewRow where
  id : Nat
  movie_id : Nat
  author : PyStr
  content : PyStr
  sentiment_score : ℚ
  created_at : Nat

/-- The PostgreSQL state: the two tables, the `SERIAL` counters and a
logical clock for `CURRENT_TIMESTAMP`. -/
structure DB where
  movies : List MovieRow
  reviews : List ReviewRow
  nextMovieId : Nat
  nextReviewId : Nat
  clock : Nat

/-- FastAPI `HTTPException(status_code=..., detail=...)`. -/
structure HTTPException where
  status_code : Nat
  detail : String

/-- The `{"message": ..., "status": ...}` body of the delete endpoints. -/
structure StatusMessage where
  message : String
  status : String

/-- Fault injection for the store calls inside `create_review`'s `try`
block: `ok` — no fault; `failInsert e` — the `INSERT`/`COMMIT` raises with
message `e` (the transaction is still open, so `conn.rollback()` undoes the
insert); `failReread e` — the post-commit re-read `SELECT` raises with
message `e` (`conn.rollback()` after a commit undoes nothing). -/
inductive StoreFault where
  | ok : StoreFault
  | failInsert : String → StoreFault
  | failReread : String → StoreFault

/-! ## Movie endpoints (backend.py lines 212–303) -/

/-- `POST /movies` — `create_movie` (lines 212–228): insert the movie with a
store-assigned `SERIAL` id and return it. -/
def create_movie (db : DB) (movie : Movie) : Movie × DB :=
  let id := db.nextMovieId
  let row : MovieRow :=
    { id, title := movie.title, release_date := movie.release_date,
      director := movie.director, genre := movie.genre,
      poster_url := movie.poster_url }
  ({ movie with id := some id },
   { db with movies := db.movies ++ [row], nextMovieId := id + 1 })

/-- The aggregation query of `get_movies`/`get_movie` (lines 236–250 and
263–277), per group: a `LEFT JOIN` from `movies` to `reviews` grouped by
movie id gives, for movie `m`, the group of review rows with
`r.movie_id = m.id`; `COUNT(r.id)` is the size of that group (0 for the
all-`NULL` row of a review-less movie) and `AVG(r.sentiment_score)` is the
mean over the group, `NULL` (here `none`) when the group is empty. -/
def movieAgg (db : DB) (m : MovieRow) : MovieWithRating :=
  let rs := db.reviews.filter (fun r => r.movie_id == m.id)
  { id := some m.id, title := m.title, release_date := m.release_date,
    director := m.director, genre := m.genre, poster_url := m.poster_url,
    review_count := rs.length,
    average_rating :=
      if rs.length = 0 then none
      else some ((rs.map ReviewRow.sentiment_score).sum / rs.length) }

/-- `ORDER BY m.id DESC` on movie rows. -/
def byIdDesc (a b : MovieRow) : Prop := b.id ≤ a.id

instance : DecidableRel byIdDesc := fun a b => Nat.decLe b.id a.id

instance : IsTotal MovieRow byIdDesc :=
  ⟨fun a b => Nat.le_total b.id a.id⟩

instance : IsTrans MovieRow byIdDesc :=
  ⟨fun _ _ _ h1 h2 => Nat.le_trans h2 h1⟩

/-- `GET /movies` — `get_movies` (lines 230–255): every movie with its
aggregates, `ORDER BY m.id DESC`. -/
def get_movies (db : DB) : List MovieWithRating :=
  (List.insertionSort byIdDesc db.movies).map (movieAgg db)

/-- `GET /movies/{movie_id}` — `get_movie` (lines 257–285): the aggregation
query scoped to one id (`fetchone`); `None` becomes a 404. -/
def get_movie (db : DB) (movie_id : Nat) : Except HTTPException MovieWithRating :=
  match db.movies.find? (fun m => m.id == movie_id) with
  | none => .error ⟨404, "영화를 찾을 수 없습니다."⟩
  | some m => .ok (movieAgg db m)

/-- `DELETE /movies/{movie_id}` — `delete_movie` (lines 287–303): 404 when
the movie is absent; otherwise `DELETE FROM movies WHERE id = %s`, and the
schema's `FOREIGN KEY ... ON DELETE CASCADE` (lines 173–183) removes every
review row whose `movie_id` references the deleted movie. -/
def delete_movie (db : DB) (movie_id : Nat) :
    Except HTTPException StatusMessage × DB :=
  match db.movies.find? (fun m => m.id == movie_id) with
  | none => (.error ⟨404, "삭제할 영화가 없습니다."⟩, db)
  | some _ =>
    (.ok ⟨"영화가 삭제되었습니다.", "success"⟩,
     { db with movies := db.movies.filter (fun m => !(m.id == movie_id)),
               reviews := db.reviews.filter (fun r => !(r.movie_id == movie_id)) })

/-! ## Review endpoints (backend.py lines 309–412) -/

/-- The join `SELECT r.*, m.title as movie_title FROM reviews r JOIN movies m
ON r.movie_id = m.id` for a single review row (movie ids are unique, being
`SERIAL PRIMARY KEY`). -/
def joinRow (db : DB) (r : ReviewRow) : Option Review :=
  (db.movies.find? (fun m => m.id == r.movie_id)).map fun m =>
    { id := some r.id, movie_id := r.movie_id, movie_title := some m.title,
      author := r.author, content := r.content,
      sentiment_score := some r.sentiment_score, created_at := some r.created_at }

/-- All rows of `reviews r JOIN movies m ON r.movie_id = m.id`. -/
def joinedReviews (db : DB) : List Review :=
  db.reviews.filterMap (joinRow db)

/-- `ORDER BY r.created_at DESC` on joined review records. -/
def byCreatedDesc (a b : Review) : Prop :=
  b.created_at.getD 0 ≤ a.created_at.getD 0

instance : DecidableRel byCreatedDesc :=
  fun a b => Nat.decLe (b.created_at.getD 0) (a.created_at.getD 0)

instance : IsTotal Review byCreatedDesc :=
  ⟨fun a b => Nat.le_total (b.created_at.getD 0) (a.created_at.getD 0)⟩

instance : IsTrans Review byCreatedDesc :=
  ⟨fun _ _ _ h1 h2 => Nat.le_trans h2 h1⟩

/-- `POST /reviews` — `create_review` (lines 309–356): look up the movie
(404 when absent, before any classifier call or write), compute the
sentiment score, `INSERT` the review, `COMMIT`, then re-read the inserted
row joined with its movie.  Any non-`HTTPException` exception inside the
`try` is turned into a 500 `"서버 오류: " + str(e)` after `conn.rollback()`;
the rollback undoes the insert only if the fault struck before the commit
(`failInsert`), not when the post-commit re-read fails (`failReread`). -/
def create_review (sentiment_analyzer : PyStr → Option ClassifierResult)
    (fault : StoreFault) (db : DB) (review : ReviewCreate) :
    Except HTTPException Review × DB :=
  match db.movies.find? (fun m => m.id == review.movie_id) with
  | none => (.error ⟨404, "영화를 찾을 수 없습니다."⟩, db)
  | some _ =>
    let sentiment_score := analyze_sentiment sentiment_analyzer review.content
    match fault with
    | .failInsert e => (.error ⟨500, "서버 오류: " ++ e⟩, db)
    | fault =>
      let row : ReviewRow :=
        { id := db.nextReviewId, movie_id := review.movie_id,
          author := review.author, content := review.content,
          sentiment_score, created_at := db.clock }
      let db' : DB :=
        { db with reviews := db.reviews ++ [row],
                  nextReviewId := db.nextReviewId + 1, clock := db.clock + 1 }
      match fault with
      | .failReread e => (.error ⟨500, "서버 오류: " ++ e⟩, db')
      | _ =>
        match (db'.reviews.find? (fun r => r.id == row.id)).bind (joinRow db') with
        | some out => (.ok out, db')
        | none =>
          -- `fetchone()` returned `None`/unjoinable: `dict(row)` raises,
          -- which the generic `except` maps to the same 500.
          (.error ⟨500, "서버 오류: 'NoneType' object is not iterable"⟩, db')

/-- `GET /reviews` — `get_all_reviews` (lines 358–375): all reviews joined
with their movie titles, `ORDER BY r.created_at DESC LIMIT %s`. -/
def get_all_reviews (db : DB) (limit : Nat) : List Review :=
  (List.insertionSort byCreatedDesc (joinedReviews db)).take limit

/-- The default of `get_all_reviews`' query parameter: `limit: int = 10`. -/
def get_all_reviews_default (db : DB) : List Review :=
  get_all_reviews db 10

/-- `GET /movies/{movie_id}/reviews` — `get_movie_reviews` (lines 377–394):
the same join restricted to one movie, `ORDER BY r.created_at DESC`. -/
def get_movie_reviews (db : DB) (movie_id : Nat) : List Review :=
  List.insertionSort byCreatedDesc
    ((joinedReviews db).filter (fun r => r.movie_id == movie_id))

/-- `DELETE /reviews/{review_id}` — `delete_review` (lines 396–412). -/
def delete_review (db : DB) (review_id : Nat) :
    Except HTTPException StatusMessage × DB :=
  match db.reviews.find? (fun r => r.id == review_id) with
  | none => (.error ⟨404, "삭제할 리뷰가 없습니다."⟩, db)
  | some _ =>
    (.ok ⟨"리뷰가 삭제되었습니다.", "success"⟩,
     { db with reviews := db.reviews.filter (fun r => !(r.id == review_id)) })

/-! ## Characterisation of `create_review` -/

/-- `analyze_sentiment` returns the neutral `0.5` whenever the classifier
call fails (models a raised exception on every input). -/
lemma analyze_sentiment_none (sa : PyStr → Option ClassifierResult)
    (hfail : ∀ t, sa t = none) (text : PyStr) :
    analyze_sentiment sa text = 1/2 := by
  unfold analyze_sentiment
  dsimp only
  generalize (if text.length > 500 then text.take 500 else text) = t
  rw [hfail t]
  split <;> rfl

/-- The `reviews` row written by a successful `create_review`. -/
def insertedRow (sa : PyStr → Option ClassifierResult) (db : DB)
    (review : ReviewCreate) : ReviewRow :=
  { id := db.nextReviewId, movie_id := review.movie_id,
    author := review.author, content := review.content,
    sentiment_score := analyze_sentiment sa review.content,
    created_at := db.clock }

/-- The database state after a committed insert by `create_review`. -/
def dbAfterInsert (sa : PyStr → Option ClassifierResult) (db : DB)
    (review : ReviewCreate) : DB :=
  { db with reviews := db.reviews ++ [insertedRow sa db review],
            nextReviewId := db.nextReviewId + 1, clock := db.clock + 1 }

/-- The record returned by a successful `create_review` (the inserted row
re-read joined with its movie `m`). -/
def returnedReview (sa : PyStr → Option ClassifierResult) (db : DB)
    (review : ReviewCreate) (m : MovieRow) : Review :=
  { id := some db.nextReviewId, movie_id := review.movie_id,
    movie_title := some m.title, author := review.author,
    content := review.content,
    sentiment_score := some (analyze_sentiment sa review.content),
    created_at := some db.clock }

/-- Fault-free success path of `create_review`: when the parent movie is
found and the fresh `SERIAL` id is unused (the `SERIAL` invariant), the
endpoint returns the joined record of the row it inserted. -/
lemma create_review_ok_spec (sa : PyStr → Option ClassifierResult)
    (db : DB) (review : ReviewCreate) (m : MovieRow)
    (hm : db.movies.find? (fun mm => mm.id == review.movie_id) = some m)
    (hfresh : ∀ r ∈ db.reviews, r.id ≠ db.nextReviewId) :
    create_review sa .ok db review =
      (.ok (returnedReview sa db review m), dbAfterInsert sa db review) := by
  have hnone : db.reviews.find? (fun r => r.id == db.nextReviewId) = none :=
    List.find?_eq_none.mpr (fun r hr => by simpa using hfresh r hr)
  unfold create_review
  rw [hm]
  dsimp only
  rw [List.find?_append, hnone]
  simp only [List.find?, beq_self_eq_true, Option.none_or]
  unfold joinRow
  dsimp only [Option.bind]
  rw [hm]
  rfl

/-- `INSERT`/`COMMIT` fault path of `create_review`: the lookup succeeded,
the store raised on the write, `conn.rollback()` undid the open transaction,
and the generic 500 is raised — the database is unchanged. -/
lemma create_review_failInsert_spec (sa : PyStr → Option ClassifierResult)
    (db : DB) (review : ReviewCreate) (m : MovieRow) (e : String)
    (hm : db.movies.find? (fun mm => mm.id == review.movie_id) = some m) :
    create_review sa (.failInsert e) db review =
      (.error ⟨500, "서버 오류: " ++ e⟩, db) := by
  unfold create_review
  rw [hm]

/-- Post-commit re-read fault path of `create_review`: the insert is already
committed when the re-read `SELECT` raises, so `conn.rollback()` undoes
nothing — the caller gets the generic 500, yet the inserted row remains. -/
lemma create_review_failReread_spec (sa : PyStr → Option ClassifierResult)
    (db : DB) (review : ReviewCreate) (m : MovieRow) (e : String)
    (hm : db.movies.find? (fun mm => mm.id == review.movie_id) = some m) :
    create_review sa (.failReread e) db review =
      (.error ⟨500, "서버 오류: " ++ e⟩, dbAfterInsert sa db review) := by
  unfold create_review
  rw [hm]
  rfl

/-- Inversion: a successful `create_review` implies the movie lookup
succeeded and no store fault was injected. -/
lemma create_review_ok_cases (sa : PyStr → Option ClassifierResult)
    (fault : StoreFault) (db : DB) (review : ReviewCreate)
    (out : Review) (db' : DB)
    (h : create_review sa fault db review = (.ok out, db')) :
    (∃ m, db.movies.find? (fun mm => mm.id == review.movie_id) = some m) ∧
      fault = .ok := by
  unfold create_review at h
  cases hfind : db.movies.find? (fun mm => mm.id == review.movie_id) with
  | none => rw [hfind] at h; simp at h
  | some m =>
    rw [hfind] at h
    cases fault with
    | ok => exact ⟨⟨m, rfl⟩, rfl⟩
    | failInsert e => simp at h
    | failReread e => simp at h

/-! ## Join and truncation facts -/

/-- Any record produced by the `reviews ⋈ movies` join comes from a review
row of the source list, keeps that row's `movie_id` and id, and carries the
title of a movie of `db` whose id it references. -/
lemma mem_filterMap_joinRow (db : DB) (rows : List ReviewRow) (x : Review)
    (hx : x ∈ rows.filterMap (joinRow db)) :
    ∃ r ∈ rows, r.movie_id = x.movie_id ∧ x.id = some r.id ∧
      ∃ m ∈ db.movies, m.id = x.movie_id ∧ x.movie_title = some m.title := by
  obtain ⟨r, hr, hjoin⟩ := List.mem_filterMap.mp hx
  unfold joinRow at hjoin
  cases hf : db.movies.find? (fun m => m.id == r.movie_id) with
  | none => rw [hf] at hjoin; simp at hjoin
  | some m =>
    rw [hf] at hjoin
    simp only [Option.map_some'] at hjoin
    have hx' := Option.some.inj hjoin
    subst hx'
    have hmId : m.id = r.movie_id := by simpa using List.find?_some hf
    exact ⟨r, hr, rfl, rfl, m, List.mem_of_find?_eq_some hf, hmId, rfl⟩

/-- Only the first 500 characters of the text influence the sentiment score:
the pipeline truncates longer input before classifying it. -/
lemma analyze_sentiment_take (sa : PyStr → Option ClassifierResult)
    (text : PyStr) :
    analyze_sentiment sa (text.take 500) = analyze_sentiment sa text := by
  have harg : (if (text.take 500).length > 500 then (text.take 500).take 500
                else text.take 500)
      = (if text.length > 500 then text.take 500 else text) := by
    by_cases h : text.length > 500
    · have h1 : (text.take 500).length = 500 ⊓ text.length := List.length_take 500 text
      rw [if_neg (by omega), if_pos h]
    · have h1 : text.take 500 = text := List.take_of_length_le (by omega)
      rw [h1]
      simp
      omega
  unfold analyze_sentiment
  dsimp only
  rw [harg]

/-! ## Concrete data used by the witnesses -/

/-- A classifier stub whose every call raises (models the pipeline being
unavailable). -/
def noneClassifier : PyStr → Option ClassifierResult := fun _ => none

/-- The `movies` row of the spec's scenario (`id = 1`). -/
def exMovieRow : MovieRow :=
  { id := 1, title := "Inception".data, release_date := "2010-07-21".data,
    director := "Nolan".data, genre := "Sci-Fi".data, poster_url := [] }

/-- A database holding the scenario movie and no reviews. -/
def exDB : DB :=
  { movies := [exMovieRow], reviews := [], nextMovieId := 2,
    nextReviewId := 1, clock := 0 }

/-- The scenario review submission. -/
def exReq : ReviewCreate :=
  { movie_id := 1, author := "A".data, content := "Amazing film".data }

/-- A stored review row for the scenario movie. -/
def exRow : ReviewRow :=
  { id := 1, movie_id := 1, author := "A".data, content := "great".data,
    sentiment_score := 1/2, created_at := 0 }

/-- A database holding the scenario movie together with one stored review. -/
def exDB2 : DB :=
  { movies := [exMovieRow], reviews := [exRow], nextMovieId := 2,
    nextReviewId := 2, clock := 1 }

/-! ## Claim theorems -/

/-- **C1**: a review submission whose `movie_id` references no existing
movie makes `create_review` fail with the 404 NotFound and leaves the
database unchanged (no row inserted), whatever the store fault; the result
is the same for every classifier, i.e. the classifier is not invoked. -/
theorem C1_create_review_notFound
    (sa : PyStr → Option ClassifierResult) (fault : StoreFault)
    (db : DB) (review : ReviewCreate)
    (habsent : db.movies.find? (fun m => m.id == review.movie_id) = none) :
    create_review sa fault db review =
      (.error ⟨404, "영화를 찾을 수 없습니다."⟩, db) := by
  unfold create_review
  rw [habsent]

/-- Witness for C1: submitting a review for the absent movie id 999. -/
theorem C1_witness :
    exDB.movies.find? (fun m => m.id == (⟨999, "A".data, "hi".data⟩ : ReviewCreate).movie_id) = none ∧
    create_review noneClassifier .ok exDB ⟨999, "A".data, "hi".data⟩ =
      (.error ⟨404, "영화를 찾을 수 없습니다."⟩, exDB) :=
  ⟨rfl, C1_create_review_notFound noneClassifier .ok exDB ⟨999, "A".data, "hi".data⟩ rfl⟩

/-- **C4**: under the classifier's contract (confidence in `[0,1]`),
`analyze_sentiment` always returns a value in `[0.0, 1.0]`, and every
record returned by a successful `create_review` carries a
`sentiment_score` in `[0.0, 1.0]` (namely the score of its content). -/
theorem C4_sentiment_score_unit_interval
    (sa : PyStr → Option ClassifierResult)
    (hA : ∀ t r, sa t = some r → 0 ≤ r.score ∧ r.score ≤ 1) :
    (∀ text, 0 ≤ analyze_sentiment sa text ∧ analyze_sentiment sa text ≤ 1) ∧
    ∀ fault db review out db',
      (∀ r ∈ db.reviews, r.id ≠ db.nextReviewId) →
      create_review sa fault db review = (.ok out, db') →
      out.sentiment_score = some (analyze_sentiment sa review.content) ∧
      ∀ s, out.sentiment_score = some s → 0 ≤ s ∧ s ≤ 1 := by
  refine ⟨analyze_sentiment_mem_unitInterval sa hA, ?_⟩
  intro fault db review out db' hfresh h
  obtain ⟨⟨m, hm⟩, hf⟩ := create_review_ok_cases sa fault db review out db' h
  subst hf
  rw [create_review_ok_spec sa db review m hm hfresh] at h
  simp only [Prod.mk.injEq, Except.ok.injEq] at h
  obtain ⟨hout, hdb⟩ := h
  subst hout
  refine ⟨rfl, ?_⟩
  intro s hs
  have hsc : analyze_sentiment sa review.content = s := by
    simpa [returnedReview] using hs
  subst hsc
  exact analyze_sentiment_mem_unitInterval sa hA review.content

/-- Witness for C4: the score of a concrete text lies in `[0,1]`. -/
theorem C4_witness :
    0 ≤ analyze_sentiment noneClassifier "Amazing film".data ∧
      analyze_sentiment noneClassifier "Amazing film".data ≤ 1 :=
  (C4_sentiment_score_unit_interval noneClassifier
    (fun t r h => nomatch h)).1 "Amazing film".data

/-- **C5**: when the classifier call raises on every input (models a raised
exception / unusable output), a submission against an existing movie still
succeeds: the neutral score `0.5` is substituted, the row is inserted with
score `0.5`, and no classifier failure reaches the caller. -/
theorem C5_classifier_failure_non_fatal
    (sa : PyStr → Option ClassifierResult) (db : DB) (review : ReviewCreate)
    (m : MovieRow)
    (hm : db.movies.find? (fun mm => mm.id == review.movie_id) = some m)
    (hfresh : ∀ r ∈ db.reviews, r.id ≠ db.nextReviewId)
    (hfail : ∀ t, sa t = none) :
    create_review sa .ok db review =
      (.ok { id := some db.nextReviewId, movie_id := review.movie_id,
             movie_title := some m.title, author := review.author,
             content := review.content, sentiment_score := some (1/2),
             created_at := some db.clock },
       { db with reviews := db.reviews ++
                     [{ id := db.nextReviewId, movie_id := review.movie_id,
                        author := review.author, content := review.content,
                        sentiment_score := 1/2, created_at := db.clock }],
                 nextReviewId := db.nextReviewId + 1,
                 clock := db.clock + 1 }) := by
  rw [create_review_ok_spec sa db review m hm hfresh]
  unfold returnedReview dbAfterInsert insertedRow
  rw [analyze_sentiment_none sa hfail]

/-- Witness for C5: the scenario submission with a failing classifier. -/
theorem C5_witness :
    create_review noneClassifier .ok exDB exReq =
      (.ok { id := some 1, movie_id := 1, movie_title := some "Inception".data,
             author := "A".data, content := "Amazing film".data,
             sentiment_score := some (1/2), created_at := some 0 },
       { movies := [exMovieRow],
         reviews := [{ id := 1, movie_id := 1, author := "A".data,
                       content := "Amazing film".data, sentiment_score := 1/2,
                       created_at := 0 }],
         nextMovieId := 2, nextReviewId := 2, clock := 1 }) :=
  C5_classifier_failure_non_fatal noneClassifier exDB exReq exMovieRow rfl
    (fun r hr => nomatch hr) (fun _ => rfl)

/-- **C6**: only the first 500 characters of the review text influence the
score (long input is truncated to the 500-character limit before
classification), and text whose truncation strips to fewer than 3
characters gets the neutral `0.5` from every classifier — no model
inference decides it. -/
theorem C6_truncation_and_short_text
    (sa : PyStr → Option ClassifierResult) (text : PyStr) :
    analyze_sentiment sa text = analyze_sentiment sa (text.take 500) ∧
    ((pyStrip (if text.length > 500 then text.take 500 else text)).length < 3 →
      ∀ sb, analyze_sentiment sb text = 1/2) := by
  constructor
  · exact (analyze_sentiment_take sa text).symm
  · intro h sb
    unfold analyze_sentiment
    dsimp only
    rw [if_pos h]

/-- Witness for C6: the two-character text `"ab"` is scored `0.5` even by a
classifier that would report a fully-confident positive. -/
theorem C6_witness :
    (pyStrip (if "ab".data.length > 500 then "ab".data.take 500 else "ab".data)).length < 3 ∧
    analyze_sentiment (fun _ => some ⟨"positive".data, 1⟩) "ab".data = 1/2 :=
  ⟨by decide,
   (C6_truncation_and_short_text noneClassifier "ab".data).2 (by decide)
     (fun _ => some ⟨"positive".data, 1⟩)⟩

/-- **C10**: `create_review` performs no emptiness validation: against an
existing movie, a submission with empty author and empty content is not
rejected — it goes through classification (empty content falls under the
short-text rule and scores the neutral `0.5`) and inserts a review row. -/
theorem C10_empty_fields_accepted
    (sa : PyStr → Option ClassifierResult) (db : DB) (mid : Nat) (m : MovieRow)
    (hm : db.movies.find? (fun mm => mm.id == mid) = some m)
    (hfresh : ∀ r ∈ db.reviews, r.id ≠ db.nextReviewId) :
    create_review sa .ok db ⟨mid, [], []⟩ =
      (.ok { id := some db.nextReviewId, movie_id := mid,
             movie_title := some m.title, author := [], content := [],
             sentiment_score := some (1/2), created_at := some db.clock },
       { db with reviews := db.reviews ++
                     [{ id := db.nextReviewId, movie_id := mid, author := [],
                        content := [], sentiment_score := 1/2,
                        created_at := db.clock }],
                 nextReviewId := db.nextReviewId + 1,
                 clock := db.clock + 1 }) := by
  have hs : analyze_sentiment sa [] = 1/2 := rfl
  rw [create_review_ok_spec sa db ⟨mid, [], []⟩ m hm hfresh]
  unfold returnedReview dbAfterInsert insertedRow
  dsimp only
  rw [hs]

/-- Witness for C10: an empty-author, empty-content submission against the
scenario movie succeeds and stores the neutral score. -/
theorem C10_witness :
    create_review noneClassifier .ok exDB ⟨1, [], []⟩ =
      (.ok { id := some 1, movie_id := 1, movie_title := some "Inception".data,
             author := [], content := [], sentiment_score := some (1/2),
             created_at := some 0 },
       { movies := [exMovieRow],
         reviews := [{ id := 1, movie_id := 1, author := [], content := [],
                       sentiment_score := 1/2, created_at := 0 }],
         nextMovieId := 2, nextReviewId := 2, clock := 1 }) :=
  C10_empty_fields_accepted noneClassifier exDB 1 exMovieRow rfl
    (fun r hr => nomatch hr)

/-- **C2**: a movie with zero stored reviews is reported by `get_movie` with
all its fields, `review_count = 0` and an absent `average_rating`
(`none`, never a numeric `0.0`), and every entry of `get_movies` for that
movie id reports the same — the aggregation (a left outer join grouped by
movie id, embedded by `movieAgg`) never defaults the average to a number. -/
theorem C2_zero_reviews_aggregate (db : DB) (m : MovieRow)
    (hfind : db.movies.find? (fun mm => mm.id == m.id) = some m)
    (hno : db.reviews.filter (fun r => r.movie_id == m.id) = []) :
    get_movie db m.id =
      .ok { id := some m.id, title := m.title, release_date := m.release_date,
            director := m.director, genre := m.genre,
            poster_url := m.poster_url, review_count := 0,
            average_rating := none } ∧
    ∀ out ∈ get_movies db, out.id = some m.id →
      out.review_count = 0 ∧ out.average_rating = none := by
  constructor
  · unfold get_movie
    rw [hfind]
    unfold movieAgg
    dsimp only
    rw [hno]
    rfl
  · intro out hout hid
    obtain ⟨mm, hmm, heq⟩ := List.mem_map.mp hout
    subst heq
    have hid' : mm.id = m.id := by simpa [movieAgg] using hid
    unfold movieAgg
    dsimp only
    rw [hid', hno]
    exact ⟨rfl, rfl⟩

/-- Witness for C2: the freshly created scenario movie has count 0 and an
absent average. -/
theorem C2_witness :
    (get_movie exDB exMovieRow.id =
      .ok { id := some exMovieRow.id, title := exMovieRow.title,
            release_date := exMovieRow.release_date,
            director := exMovieRow.director, genre := exMovieRow.genre,
            poster_url := exMovieRow.poster_url, review_count := 0,
            average_rating := none }) ∧
    ∀ out ∈ get_movies exDB, out.id = some exMovieRow.id →
      out.review_count = 0 ∧ out.average_rating = none :=
  C2_zero_reviews_aggregate exDB exMovieRow rfl rfl

/-- **C8**: `delete_movie` fails with the 404 NotFound when no such movie
exists (and changes nothing); otherwise it deletes the movie and — in the
same step, via the schema's `ON DELETE CASCADE` — exactly the reviews
referencing it, after which `get_movie_reviews` for that id is empty and
(ids being unique) none of the removed reviews is retrievable by its former
id. -/
theorem C8_delete_movie_cascade (db : DB) (movie_id : Nat) :
    (db.movies.find? (fun m => m.id == movie_id) = none →
      delete_movie db movie_id = (.error ⟨404, "삭제할 영화가 없습니다."⟩, db)) ∧
    ∀ m, db.movies.find? (fun mm => mm.id == movie_id) = some m →
      delete_movie db movie_id =
        (.ok ⟨"영화가 삭제되었습니다.", "success"⟩,
         { db with movies := db.movies.filter (fun mm => !(mm.id == movie_id)),
                   reviews := db.reviews.filter (fun r => !(r.movie_id == movie_id)) }) ∧
      get_movie_reviews (delete_movie db movie_id).2 movie_id = [] ∧
      ((db.reviews.map ReviewRow.id).Nodup →
        ∀ r ∈ db.reviews, r.movie_id = movie_id →
          ∀ r' ∈ (delete_movie db movie_id).2.reviews, r'.id ≠ r.id) := by
  constructor
  · intro habsent
    unfold delete_movie
    rw [habsent]
  · intro m hm
    have hdel : delete_movie db movie_id =
        (.ok ⟨"영화가 삭제되었습니다.", "success"⟩,
         { db with movies := db.movies.filter (fun mm => !(mm.id == movie_id)),
                   reviews := db.reviews.filter (fun r => !(r.movie_id == movie_id)) }) := by
      unfold delete_movie
      rw [hm]
    refine ⟨hdel, ?_, ?_⟩
    · rw [hdel]
      unfold get_movie_reviews
      have hempty : (joinedReviews
          { db with movies := db.movies.filter (fun mm => !(mm.id == movie_id)),
                    reviews := db.reviews.filter (fun r => !(r.movie_id == movie_id)) }).filter
            (fun x => x.movie_id == movie_id) = [] := by
        rw [List.filter_eq_nil_iff]
        intro x hx
        obtain ⟨r, hr, hrid, -, -⟩ := mem_filterMap_joinRow _ _ x hx
        have hr' := (List.mem_filter.mp hr).2
        simp only [Bool.not_eq_true', beq_eq_false_iff_ne] at hr'
        simp only [beq_iff_eq]
        rw [← hrid]
        exact hr'
      rw [hempty]
      rfl
    · intro hnodup r hr hrm r' hr' hcontra
      rw [hdel] at hr'
      dsimp only at hr'
      have hmem := List.mem_filter.mp hr'
      have hr'2 := hmem.2
      simp only [Bool.not_eq_true', beq_eq_false_iff_ne] at hr'2
      have : r' = r :=
        List.inj_on_of_nodup_map hnodup hmem.1 hr hcontra
      rw [this] at hr'2
      exact hr'2 hrm

/-- Witness for C8: deleting the scenario movie removes its stored review,
empties the listing and makes the review's id unretrievable. -/
theorem C8_witness :
    (delete_movie exDB2 1 =
      (.ok ⟨"영화가 삭제되었습니다.", "success"⟩,
       { exDB2 with movies := exDB2.movies.filter (fun mm => !(mm.id == 1)),
                    reviews := exDB2.reviews.filter (fun r => !(r.movie_id == 1)) })) ∧
    get_movie_reviews (delete_movie exDB2 1).2 1 = [] ∧
    ∀ r' ∈ (delete_movie exDB2 1).2.reviews, r'.id ≠ exRow.id := by
  obtain ⟨h1, h2, h3⟩ := (C8_delete_movie_cascade exDB2 1).2 exMovieRow rfl
  exact ⟨h1, h2, h3 (by simp [exDB2]) exRow (by simp [exDB2]) rfl⟩

/-- **C9**: `get_all_reviews` returns at most `limit` reviews (and the
endpoint's default query parameter is `limit = 10`), each joined with the
title of the movie it references, ordered by creation timestamp
descending. -/
theorem C9_recent_reviews (db : DB) (limit : Nat) :
    (get_all_reviews db limit).length ≤ limit ∧
    get_all_reviews_default db = get_all_reviews db 10 ∧
    List.Sorted byCreatedDesc (get_all_reviews db limit) ∧
    ∀ x ∈ get_all_reviews db limit,
      ∃ m ∈ db.movies, m.id = x.movie_id ∧ x.movie_title = some m.title := by
  refine ⟨?_, rfl, ?_, ?_⟩
  · unfold get_all_reviews
    rw [List.length_take]
    exact min_le_left _ _
  · unfold get_all_reviews
    exact List.Pairwise.sublist (List.take_sublist _ _)
      (List.sorted_insertionSort byCreatedDesc _)
  · intro x hx
    unfold get_all_reviews at hx
    have hx1 : x ∈ List.insertionSort byCreatedDesc (joinedReviews db) :=
      (List.take_sublist _ _).subset hx
    have hx2 : x ∈ joinedReviews db :=
      (List.perm_insertionSort byCreatedDesc _).mem_iff.mp hx1
    obtain ⟨r, hr, hrid, hid, m, hmmem, hmid, htitle⟩ :=
      mem_filterMap_joinRow db db.reviews x hx2
    exact ⟨m, hmmem, hmid, htitle⟩

/-- **C7**: create-then-read round trip — the record returned by a
successful `create_review` appears in a subsequent `get_movie_reviews` for
that movie, and filtering that listing by the returned record's id yields
exactly that record (same sentiment score and all other fields). -/
theorem C7_create_then_read_roundtrip
    (sa : PyStr → Option ClassifierResult) (db : DB) (review : ReviewCreate)
    (m : MovieRow) (out : Review) (db' : DB)
    (hm : db.movies.find? (fun mm => mm.id == review.movie_id) = some m)
    (hfresh : ∀ r ∈ db.reviews, r.id ≠ db.nextReviewId)
    (h : create_review sa .ok db review = (.ok out, db')) :
    out ∈ get_movie_reviews db' review.movie_id ∧
    (get_movie_reviews db' review.movie_id).filter (fun x => x.id == out.id)
      = [out] := by
  rw [create_review_ok_spec sa db review m hm hfresh] at h
  simp only [Prod.mk.injEq, Except.ok.injEq] at h
  obtain ⟨hout, hdb⟩ := h
  subst hout
  subst hdb
  set ret := returnedReview sa db review m with hret
  have hjoinNew : joinRow (dbAfterInsert sa db review) (insertedRow sa db review)
      = some ret := by
    rw [hret]
    unfold joinRow dbAfterInsert insertedRow returnedReview
    dsimp only
    rw [hm]
    rfl
  have hsplit : joinedReviews (dbAfterInsert sa db review)
      = db.reviews.filterMap (joinRow (dbAfterInsert sa db review)) ++ [ret] := by
    show (db.reviews ++ [insertedRow sa db review]).filterMap
        (joinRow (dbAfterInsert sa db review)) = _
    rw [List.filterMap_append]
    congr 1
    rw [List.filterMap_cons, hjoinNew]
    rfl
  have hfilter : (joinedReviews (dbAfterInsert sa db review)).filter
      (fun x => x.movie_id == review.movie_id)
      = (db.reviews.filterMap (joinRow (dbAfterInsert sa db review))).filter
          (fun x => x.movie_id == review.movie_id) ++ [ret] := by
    rw [hsplit, List.filter_append]
    congr 1
    simp [hret, returnedReview]
  have hold : ((db.reviews.filterMap (joinRow (dbAfterInsert sa db review))).filter
      (fun x => x.movie_id == review.movie_id)).filter
        (fun x => x.id == ret.id) = [] := by
    rw [List.filter_eq_nil_iff]
    intro x hx
    have hx' : x ∈ db.reviews.filterMap (joinRow (dbAfterInsert sa db review)) :=
      List.mem_of_mem_filter hx
    obtain ⟨r, hr, -, hid, -⟩ := mem_filterMap_joinRow _ _ x hx'
    have hne : r.id ≠ db.nextReviewId := hfresh r hr
    simp only [hid, hret, returnedReview, beq_iff_eq, Option.some.injEq]
    exact hne
  have hmem : ret ∈ (joinedReviews (dbAfterInsert sa db review)).filter
      (fun x => x.movie_id == review.movie_id) := by
    rw [hfilter]
    exact List.mem_append_right _ (List.mem_singleton.mpr rfl)
  constructor
  · unfold get_movie_reviews
    exact (List.perm_insertionSort byCreatedDesc _).mem_iff.mpr hmem
  · unfold get_movie_reviews
    have hperm : (List.insertionSort byCreatedDesc
        ((joinedReviews (dbAfterInsert sa db review)).filter
          (fun x => x.movie_id == review.movie_id))).filter
        (fun x => x.id == ret.id) |>.Perm
        (((joinedReviews (dbAfterInsert sa db review)).filter
          (fun x => x.movie_id == review.movie_id)).filter
          (fun x => x.id == ret.id)) :=
      (List.perm_insertionSort byCreatedDesc _).filter _
    have hsing : ((joinedReviews (dbAfterInsert sa db review)).filter
        (fun x => x.movie_id == review.movie_id)).filter
        (fun x => x.id == ret.id) = [ret] := by
      rw [hfilter, List.filter_append, hold]
      simp
    rw [hsing] at hperm
    exact List.perm_singleton.mp hperm

/-- Witness for C7: the scenario submission read back from the listing. -/
theorem C7_witness :
    returnedReview noneClassifier exDB exReq exMovieRow ∈
      get_movie_reviews (dbAfterInsert noneClassifier exDB exReq) exReq.movie_id ∧
    (get_movie_reviews (dbAfterInsert noneClassifier exDB exReq)
        exReq.movie_id).filter
        (fun x => x.id == (returnedReview noneClassifier exDB exReq exMovieRow).id)
      = [returnedReview noneClassifier exDB exReq exMovieRow] :=
  C7_create_then_read_roundtrip noneClassifier exDB exReq exMovieRow
    (returnedReview noneClassifier exDB exReq exMovieRow)
    (dbAfterInsert noneClassifier exDB exReq) rfl (fun r hr => nomatch hr)
    (create_review_ok_spec noneClassifier exDB exReq exMovieRow rfl
      (fun r hr => nomatch hr))

/-- **C3** (countered as stated): a store failure can strike `create_review`
after the parent-movie lookup succeeded *and after the commit* — in the
re-read `SELECT` of step 4.  The `except` clause then calls
`conn.rollback()`, but the insert is already committed, so the rollback
undoes nothing: the caller receives the 500 Internal error, yet one row
has been inserted into `reviews` — not zero. -/
theorem C3_counterexample :
    (create_review noneClassifier (.failReread "connection reset") exDB exReq).1 =
      .error ⟨500, "서버 오류: " ++ "connection reset"⟩ ∧
    exDB.reviews.length = 0 ∧
    (create_review noneClassifier
        (.failReread "connection reset") exDB exReq).2.reviews.length = 1 :=
  ⟨rfl, rfl, rfl⟩

/-- **C3** (amended): a persistence failure in the `INSERT`/`COMMIT` step
after a successful movie lookup is rolled back — zero rows inserted, the
caller gets the 500 `"서버 오류: ..."` Internal error; a store failure in
the post-commit re-read also surfaces as the same 500, but there the
already-committed row remains (exactly one row inserted). -/
theorem C3_amended_persistence_failure
    (sa : PyStr → Option ClassifierResult) (db : DB) (review : ReviewCreate)
    (m : MovieRow) (e : String)
    (hm : db.movies.find? (fun mm => mm.id == review.movie_id) = some m) :
    create_review sa (.failInsert e) db review =
      (.error ⟨500, "서버 오류: " ++ e⟩, db) ∧
    create_review sa (.failReread e) db review =
      (.error ⟨500, "서버 오류: " ++ e⟩, dbAfterInsert sa db review) ∧
    (dbAfterInsert sa db review).reviews
      = db.reviews ++ [insertedRow sa db review] :=
  ⟨create_review_failInsert_spec sa db review m e hm,
   create_review_failReread_spec sa db review m e hm, rfl⟩

/-- Witness for the amended C3: both fault positions on the scenario data. -/
theorem C3_witness :
    create_review noneClassifier (.failInsert "disk full") exDB exReq =
      (.error ⟨500, "서버 오류: " ++ "disk full"⟩, exDB) ∧
    create_review noneClassifier (.failReread "disk full") exDB exReq =
      (.error ⟨500, "서버 오류: " ++ "disk full"⟩,
       dbAfterInsert noneClassifier exDB exReq) ∧
    (dbAfterInsert noneClassifier exDB exReq).reviews
      = exDB.reviews ++ [insertedRow noneClassifier exDB exReq] :=
  C3_amended_persistence_failure noneClassifier exDB exReq exMovieRow
    "disk full" rfl
